/-
Verification of the Telepathy telescope pointing-correction workflow.

Shallow embedding of the three source modules:
  * `control.py`    — `Target`, `pointing_error`, `within_tolerance`, and the
    pointing-correction loop `Session.plate_solve` (modelled as `plate_solve`,
    with the solver `solve_image` abstracted as an oracle `sols : Nat → Option (ℚ × ℚ)`
    giving the solution resolved on each attempt, and the mount/camera calls
    recorded in a trace);
  * `client.py`     — `_get_upload_args` (the option table and default rules),
    the session state of `Client`, the `session`-token attachment performed by
    `Client.send_request`, and the session extraction of `Client.login`;
  * `astrometry.py` — `solve_web`: the two-try upload loop (whose attempts
    go through `send_request` and hence abort on its `RequestError`), the
    combined submission/job polling loop with its single wall-clock timeout,
    and `get_results` extracting ra/dec from a job's calibration record.

Python floats are modelled as ℚ; dicts as association lists; the remote
service and the wall clock as oracles indexed by poll/attempt number.
-/
import Mathlib

/-! ## control.py : data model -/

/-- `Target` (control.py): a desired pointing.  Only the fields the
correction loop reads are modelled; `ra`/`dec` are degrees. -/
structure Target where
  name : Option String
  ra : ℚ
  dec : ℚ
deriving Repr, DecidableEq

/-- `pointing_error(ra, dec, target)` (control.py): per-axis absolute
difference between the target and the resolved pointing. -/
def pointing_error (ra : ℚ) (dec : ℚ) (target : Target) : ℚ × ℚ :=
  (|target.ra - ra|, |target.dec - dec|)

/-- `within_tolerance(error, tol)` (control.py): both per-axis errors are
at most `tol` (the source comparison is `<=` on each axis). -/
def within_tolerance (error : ℚ × ℚ) (tol : ℚ) : Bool :=
  decide (error.1 ≤ tol) && decide (error.2 ≤ tol)

/-! ## control.py : Session.plate_solve

The loop `for i in range(attempts)` slews, exposes and solves once per
iteration; if the solver returns `None` it breaks at once (before any sync);
otherwise it always syncs to the resolved position and only then checks
`within_tolerance`, setting `_plate_solved` and breaking when it holds.
The observable behaviour is recorded as a `SolveTrace`. -/

/-- Observable trace of one `plate_solve` run: how many slew/expose/solve
cycles ran, the sync commands issued (resolved positions, in order), and the
final `_plate_solved` flag. -/
structure SolveTrace where
  cycles : Nat
  syncs : List (ℚ × ℚ)
  plate_solved : Bool
deriving Repr, DecidableEq

/-- The body of `for i in range(attempts)` in `Session.plate_solve`
(control.py), starting at attempt index `i` with `rem` iterations left.
`sols n` is the solution the solver resolves on attempt `n` (`none` = the
service could not solve the frame).  `flag` is the incoming `_plate_solved`. -/
def plate_solve_go (target : Target) (tol : ℚ) (sols : Nat → Option (ℚ × ℚ))
    (flag : Bool) : Nat → Nat → SolveTrace
  | _, 0 => ⟨0, [], flag⟩
  | i, rem + 1 =>
    match sols i with
    | none => ⟨1, [], flag⟩
    | some sol =>
      -- the source syncs to the resolved position before testing tolerance
      if within_tolerance (pointing_error sol.1 sol.2 target) tol then
        ⟨1, [sol], true⟩
      else
        let t := plate_solve_go target tol sols flag (i + 1) rem
        ⟨t.cycles + 1, sol :: t.syncs, t.plate_solved⟩

/-- `Session.plate_solve(target, ..., tol, attempts)` (control.py) run with
an explicit target, as a function of the per-attempt solver oracle. -/
def plate_solve (target : Target) (tol : ℚ) (sols : Nat → Option (ℚ × ℚ))
    (attempts : Nat) (flag : Bool) : SolveTrace :=
  plate_solve_go target tol sols flag 0 attempts

/-- Attempt `n` resolves a solution whose error is not within tolerance. -/
def attempt_misses (target : Target) (tol : ℚ) (sols : Nat → Option (ℚ × ℚ))
    (n : Nat) : Prop :=
  ∃ sol, sols n = some sol ∧
    within_tolerance (pointing_error sol.1 sol.2 target) tol = false

/-! ### Loop lemmas -/

lemma plate_solve_go_converge (target : Target) (tol : ℚ)
    (sols : Nat → Option (ℚ × ℚ)) (flag : Bool) :
    ∀ c i rem, c < rem →
    (∀ j, j < c → attempt_misses target tol sols (i + j)) →
    ∀ sol, sols (i + c) = some sol →
    within_tolerance (pointing_error sol.1 sol.2 target) tol = true →
    ∃ l, plate_solve_go target tol sols flag i rem = ⟨c + 1, l ++ [sol], true⟩ ∧
      l.length = c := by
  intro c
  induction c with
  | zero =>
    intro i rem hrem hmiss sol hsol htol
    obtain ⟨rem, rfl⟩ : ∃ r, rem = r + 1 := ⟨rem - 1, by omega⟩
    rw [Nat.add_zero] at hsol
    refine ⟨[], ?_, rfl⟩
    simp only [plate_solve_go, hsol, htol, if_true, List.nil_append]
  | succ c ih =>
    intro i rem hrem hmiss sol hsol htol
    obtain ⟨rem, rfl⟩ : ∃ r, rem = r + 1 := ⟨rem - 1, by omega⟩
    obtain ⟨sol0, hsol0, hmiss0⟩ := hmiss 0 (Nat.succ_pos c)
    rw [Nat.add_zero] at hsol0
    obtain ⟨l, hl, hlen⟩ := ih (i + 1) rem (by omega)
      (fun j hj => by
        have := hmiss (j + 1) (by omega)
        rwa [show i + (j + 1) = i + 1 + j by omega] at this)
      sol (by rwa [show i + 1 + c = i + (c + 1) by omega]) htol
    refine ⟨sol0 :: l, ?_, by simp [hlen]⟩
    simp [plate_solve_go, hsol0, hmiss0, hl]

lemma plate_solve_go_all_miss (target : Target) (tol : ℚ)
    (sols : Nat → Option (ℚ × ℚ)) (flag : Bool) :
    ∀ rem i, (∀ j, j < rem → attempt_misses target tol sols (i + j)) →
    (plate_solve_go target tol sols flag i rem).cycles = rem ∧
      (plate_solve_go target tol sols flag i rem).plate_solved = flag := by
  intro rem
  induction rem with
  | zero => intro i _; simp [plate_solve_go]
  | succ rem ih =>
    intro i hmiss
    obtain ⟨sol0, hsol0, hmiss0⟩ := hmiss 0 (Nat.succ_pos rem)
    rw [Nat.add_zero] at hsol0
    obtain ⟨h1, h2⟩ := ih (i + 1) (fun j hj => by
      have := hmiss (j + 1) (by omega)
      rwa [show i + (j + 1) = i + 1 + j by omega] at this)
    simp only [plate_solve_go, hsol0]
    constructor
    · simp [hmiss0, h1]
    · simp [hmiss0, h2]

lemma plate_solve_go_abort (target : Target) (tol : ℚ)
    (sols : Nat → Option (ℚ × ℚ)) (flag : Bool) :
    ∀ m i rem, m < rem →
    (∀ j, j < m → attempt_misses target tol sols (i + j)) →
    sols (i + m) = none →
    ∃ l, plate_solve_go target tol sols flag i rem = ⟨m + 1, l, flag⟩ ∧
      l.length = m := by
  intro m
  induction m with
  | zero =>
    intro i rem hrem _ hnone
    obtain ⟨rem, rfl⟩ : ∃ r, rem = r + 1 := ⟨rem - 1, by omega⟩
    rw [Nat.add_zero] at hnone
    refine ⟨[], ?_, rfl⟩
    simp only [plate_solve_go, hnone]
  | succ m ih =>
    intro i rem hrem hmiss hnone
    obtain ⟨rem, rfl⟩ : ∃ r, rem = r + 1 := ⟨rem - 1, by omega⟩
    obtain ⟨sol0, hsol0, hmiss0⟩ := hmiss 0 (Nat.succ_pos m)
    rw [Nat.add_zero] at hsol0
    obtain ⟨l, hl, hlen⟩ := ih (i + 1) rem (by omega)
      (fun j hj => by
        have := hmiss (j + 1) (by omega)
        rwa [show i + (j + 1) = i + 1 + j by omega] at this)
      (by rwa [show i + 1 + m = i + (m + 1) by omega])
    refine ⟨sol0 :: l, ?_, by simp [hlen]⟩
    simp [plate_solve_go, hsol0, hmiss0, hl]

/-! ### Claims about the pointing-correction loop -/

/-- C1, counterexample.  Target (0,0), tolerance 1, solver resolves (0,0) on
attempt 1: the attempt is within tolerance, the loop stops after one cycle
with the plate-solved flag set — yet `syncs = [(0,0)]`: a sync command WAS
issued on the converging attempt, because the source calls
`self.sync_telescope(...)` before testing `within_tolerance`.  This refutes
the claim's "a sync command is issued only on attempts whose error is not
within tolerance (no sync is issued on the converging attempt)". -/
theorem sync_on_converging_attempt :
    plate_solve ⟨none, 0, 0⟩ 1 (fun _ => some (0, 0)) 5 false =
      ⟨1, [(0, 0)], true⟩ := by
  have h : within_tolerance (pointing_error 0 0 ⟨none, 0, 0⟩) 1 = true := by
    simp [within_tolerance, pointing_error]
  simp [plate_solve, plate_solve_go, h]

/-- C1 (amended): for every attempt whose resolved solution has both per-axis
errors within tolerance, the loop marks converged, sets the plate-solved flag
and stops; but a sync command is issued on every attempt that resolves a
solution, including the converging attempt (the sync to the converging
solution is the last element of the sync trace). -/
theorem plate_solve_converge_syncs (target : Target) (tol : ℚ)
    (sols : Nat → Option (ℚ × ℚ)) (attempts : Nat) (flag : Bool)
    (c : Nat) (sol : ℚ × ℚ)
    (hc : c < attempts)
    (hmiss : ∀ j, j < c → attempt_misses target tol sols j)
    (hsol : sols c = some sol)
    (htol : within_tolerance (pointing_error sol.1 sol.2 target) tol = true) :
    ∃ l, plate_solve target tol sols attempts flag = ⟨c + 1, l ++ [sol], true⟩ ∧
      l.length = c := by
  have h := plate_solve_go_converge target tol sols flag c 0 attempts hc
    (fun j hj => by simpa using hmiss j hj) sol (by simpa using hsol) htol
  simpa [plate_solve] using h

/-- Witness for C1 (amended): attempt 1 resolves (5,5) (error 5, misses
tolerance 1), attempt 2 resolves (0,0) (hit): the loop stops after 2 cycles
with flag true and the converging sync last in a 2-element sync trace. -/
theorem plate_solve_converge_syncs_witness :
    ∃ l, plate_solve ⟨none, 0, 0⟩ 1
        (fun n => if n = 0 then some (5, 5) else some (0, 0)) 5 false =
      ⟨2, l ++ [(0, 0)], true⟩ ∧ l.length = 1 :=
  plate_solve_converge_syncs ⟨none, 0, 0⟩ 1
    (fun n => if n = 0 then some (5, 5) else some (0, 0)) 5 false 1 (0, 0)
    (by decide)
    (by
      intro j hj
      interval_cases j
      exact ⟨(5, 5), rfl, by simp [within_tolerance, pointing_error]⟩)
    rfl (by simp [within_tolerance, pointing_error])

/-- C3: if every attempt resolves a solution and the first solution within
tolerance occurs on attempt `c + 1 ≤ attempts` (0-indexed `c`), the loop
performs exactly `c + 1` slew/expose/solve cycles and leaves the plate-solved
flag true; if every attempt resolves a solution and none is within tolerance,
it performs exactly `attempts` cycles and leaves the flag false. -/
theorem plate_solve_cycle_count (target : Target) (tol : ℚ)
    (sols : Nat → Option (ℚ × ℚ)) (attempts : Nat) :
    (∀ c, c < attempts →
      (∀ j, j < c → attempt_misses target tol sols j) →
      ∀ sol, sols c = some sol →
      within_tolerance (pointing_error sol.1 sol.2 target) tol = true →
      (plate_solve target tol sols attempts false).cycles = c + 1 ∧
        (plate_solve target tol sols attempts false).plate_solved = true) ∧
    ((∀ j, j < attempts → attempt_misses target tol sols j) →
      (plate_solve target tol sols attempts false).cycles = attempts ∧
        (plate_solve target tol sols attempts false).plate_solved = false) := by
  constructor
  · intro c hc hmiss sol hsol htol
    obtain ⟨l, hl, _⟩ := plate_solve_go_converge target tol sols false c 0 attempts hc
      (fun j hj => by simpa using hmiss j hj) sol (by simpa using hsol) htol
    constructor
    · simp [plate_solve, hl]
    · simp [plate_solve, hl]
  · intro hmiss
    have h := plate_solve_go_all_miss target tol sols false attempts 0
      (fun j hj => by simpa using hmiss j hj)
    simpa [plate_solve] using h

/-- Witness for C3: a hit on attempt 1 gives 1 cycle and flag true; five
misses under a budget of 5 give 5 cycles and flag false. -/
theorem plate_solve_cycle_count_witness :
    ((plate_solve ⟨none, 0, 0⟩ 1 (fun _ => some (0, 0)) 5 false).cycles = 1 ∧
      (plate_solve ⟨none, 0, 0⟩ 1 (fun _ => some (0, 0)) 5 false).plate_solved = true) ∧
    ((plate_solve ⟨none, 0, 0⟩ 1 (fun _ => some (10, 10)) 5 false).cycles = 5 ∧
      (plate_solve ⟨none, 0, 0⟩ 1 (fun _ => some (10, 10)) 5 false).plate_solved = false) :=
  ⟨(plate_solve_cycle_count ⟨none, 0, 0⟩ 1 (fun _ => some (0, 0)) 5).1 0 (by decide)
      (fun j hj => absurd hj (Nat.not_lt_zero j)) (0, 0) rfl
      (by simp [within_tolerance, pointing_error]),
    (plate_solve_cycle_count ⟨none, 0, 0⟩ 1 (fun _ => some (10, 10)) 5).2
      (fun j _ => ⟨(10, 10), rfl, by simp [within_tolerance, pointing_error]⟩)⟩

/-- C6: if the solver returns no solution (`None`) on an attempt, the loop
terminates the whole correction run immediately: it performs no further
slew/expose/solve cycles (total cycles = index of the failing attempt + 1),
issues no sync for that attempt (one sync per earlier attempt only), and
leaves the plate-solved flag unchanged. -/
theorem none_solution_aborts (target : Target) (tol : ℚ)
    (sols : Nat → Option (ℚ × ℚ)) (attempts : Nat) (flag : Bool) (m : Nat)
    (hm : m < attempts)
    (hmiss : ∀ j, j < m → attempt_misses target tol sols j)
    (hnone : sols m = none) :
    (plate_solve target tol sols attempts flag).cycles = m + 1 ∧
      (plate_solve target tol sols attempts flag).syncs.length = m ∧
      (plate_solve target tol sols attempts flag).plate_solved = flag := by
  obtain ⟨l, hl, hlen⟩ := plate_solve_go_abort target tol sols flag m 0 attempts hm
    (fun j hj => by simpa using hmiss j hj) (by simpa using hnone)
  refine ⟨?_, ?_, ?_⟩ <;> simp [plate_solve, hl, hlen]

/-- Witness for C6: an unsolvable frame on attempt 1 of 5 stops the run after
one cycle, with no sync and the flag still false. -/
theorem none_solution_aborts_witness :
    (plate_solve ⟨none, 0, 0⟩ 1 (fun _ => none) 5 false).cycles = 1 ∧
      (plate_solve ⟨none, 0, 0⟩ 1 (fun _ => none) 5 false).syncs.length = 0 ∧
      (plate_solve ⟨none, 0, 0⟩ 1 (fun _ => none) 5 false).plate_solved = false :=
  none_solution_aborts ⟨none, 0, 0⟩ 1 (fun _ => none) 5 false 0 (by decide)
    (fun j hj => absurd hj (Nat.not_lt_zero j)) rfl

/-- C10: the convergence check is inclusive at the boundary:
`within_tolerance` returns true exactly when both per-axis errors are less
than or equal to `tol`; in particular an error exactly equal to the tolerance
on both axes still counts as converged. -/
theorem within_tolerance_inclusive (error : ℚ × ℚ) (tol : ℚ) :
    (within_tolerance error tol = true ↔ error.1 ≤ tol ∧ error.2 ≤ tol) ∧
      within_tolerance (tol, tol) tol = true := by
  constructor
  · simp [within_tolerance]
  · simp [within_tolerance]

/-! ## client.py : values, dicts -/

/-- JSON-able Python values appearing in request argument dicts
(strings, floats, ints, bools, and the numeric lists of the `x`/`y`
upload options). -/
inductive PyVal
  | str (s : String)
  | float (q : ℚ)
  | int (n : Int)
  | bool (b : Bool)
  | list (l : List ℚ)
deriving Repr, DecidableEq

/-- Python dict lookup `d[key]` / `key in d` on an association list. -/
def dict_lookup (args : List (String × PyVal)) (key : String) : Option PyVal :=
  match args with
  | [] => none
  | (k, v) :: rest => if k = key then some v else dict_lookup rest key

/-- Python `d.update({key: val})`: replace the key in place or append it. -/
def dict_update (args : List (String × PyVal)) (key : String) (val : PyVal) :
    List (String × PyVal) :=
  match args with
  | [] => [(key, val)]
  | (k, v) :: rest =>
    if k = key then (k, val) :: rest else (k, v) :: dict_update rest key val

lemma dict_lookup_update (args : List (String × PyVal)) (key : String) (val : PyVal) :
    dict_lookup (dict_update args key val) key = some val := by
  induction args with
  | nil => simp [dict_update, dict_lookup]
  | cons kv rest ih =>
    obtain ⟨k, v⟩ := kv
    by_cases h : k = key
    · simp [dict_update, dict_lookup, h]
    · simp [dict_update, dict_lookup, h, ih]

/-! ## client.py : Client session state, send_request, login -/

/-- The mutable state of a `Client` instance: `self.session` is `None`
until `login` succeeds. -/
structure ClientState where
  session : Option String
deriving Repr, DecidableEq

/-- The argument-dict preparation of `Client.send_request` (client.py):
`if self.session is not None: args.update({'session': self.session})`.
When the client is unauthenticated the function performs no check at all
and sends the args unchanged — the request construction is total. -/
def send_request_args (st : ClientState) (args : List (String × PyVal)) :
    List (String × PyVal) :=
  match st.session with
  | none => args
  | some s => dict_update args "session" (PyVal.str s)

/-- The spec's error class for operations invoked before authentication. -/
inductive PreconditionError
  | unauthenticated
deriving Repr, DecidableEq

/-- Modelled from the spec: the spec's `send_request`, in which "every other
operation fails fast with `PreconditionError` if invoked first" (before
authentication succeeds).  This definition follows the spec's words, for
comparison with `send_request_args`, which is translated from client.py —
the source contains no such check and no `PreconditionError` class. -/
def send_request_args_spec (st : ClientState) (args : List (String × PyVal)) :
    Except PreconditionError (List (String × PyVal)) :=
  match st.session with
  | none => Except.error PreconditionError.unauthenticated
  | some s => Except.ok (dict_update args "session" (PyVal.str s))

/-- `RequestError` (client.py): raised by `Client.send_request` when the
parsed response's top-level `status` field is `"error"` — the response is
never returned to the caller in that case (the service-supplied error
message carried by the exception is not modelled). -/
inductive RequestError
  | serverError
deriving Repr, DecidableEq

/-- `Client.login` (client.py): extract `session` from the response; Python
`if not sess` rejects both a missing session and an empty string; otherwise
store it in `self.session`. -/
def login_step (result_session : Option String) : Except String ClientState :=
  match result_session with
  | none => Except.error "no session in result"
  | some s =>
    if s = "" then Except.error "no session in result"
    else Except.ok ⟨some s⟩

/-! ### Claims about the client session -/

/-- C2, counterexample.  An operation invoked on an unauthenticated client
(`session = None`) does not fail: `send_request` builds and sends the request
with the args unchanged and no `session` token attached.  The last conjunct
shows the spec-modelled behaviour (`PreconditionError`) disagreeing with the
source at this input: the claim's "fails fast with a PreconditionError
rather than silently proceeding without a token" is false of the code. -/
theorem unauthenticated_request_proceeds :
    send_request_args ⟨none⟩ [("apikey", PyVal.str "k")] =
        [("apikey", PyVal.str "k")] ∧
      dict_lookup (send_request_args ⟨none⟩ [("apikey", PyVal.str "k")])
        "session" = none ∧
      send_request_args_spec ⟨none⟩ [("apikey", PyVal.str "k")] =
        Except.error PreconditionError.unauthenticated :=
  ⟨rfl, by decide, rfl⟩

/-- C2 (amended): every client operation invoked after successful
authentication attaches the stored session token to the outgoing request;
an operation invoked before authentication proceeds with the request
unchanged — no token is attached and no error is raised (the code has no
`PreconditionError`). -/
theorem session_token_attached (res : Option String) (st : ClientState)
    (hlogin : login_step res = Except.ok st) :
    (∀ args, ∃ s, st.session = some s ∧
      dict_lookup (send_request_args st args) "session" = some (PyVal.str s)) ∧
    (∀ st0 : ClientState, st0.session = none →
      ∀ args, send_request_args st0 args = args) := by
  constructor
  · intro args
    match res, hlogin with
    | none, hlogin => simp [login_step] at hlogin
    | some s, hlogin =>
      by_cases hs : s = ""
      · simp [login_step, hs] at hlogin
      · simp only [login_step, if_neg hs] at hlogin
        obtain rfl : (⟨some s⟩ : ClientState) = st := by
          injection hlogin
        exact ⟨s, rfl, by simp [send_request_args, dict_lookup_update]⟩
  · intro st0 h0 args
    simp [send_request_args, h0]

/-- Witness for C2 (amended): after a login that returned session token
"tok", a request with one argument carries `session = "tok"`. -/
theorem session_token_attached_witness :
    dict_lookup (send_request_args ⟨some "tok"⟩ [("apikey", PyVal.str "k")])
      "session" = some (PyVal.str "tok") := by
  obtain ⟨s, hs, h⟩ :=
    (session_token_attached (some "tok") ⟨some "tok"⟩ rfl).1
      [("apikey", PyVal.str "k")]
  simp only [Option.some.injEq] at hs
  rwa [← hs] at h

/-! ## client.py : _get_upload_args -/

/-- The Python types used to coerce supplied upload options
(`str`, `float`, `int`, `bool`, `list` in the source table). -/
inductive PyTy
  | str
  | float
  | int
  | bool
  | list
deriving Repr, DecidableEq

/-- The option table of `_get_upload_args` (client.py): each recognized
keyword with its default (`None` for "absent unless supplied") and its
coercion type, in source order. -/
def upload_option_table : List (String × Option String × PyTy) :=
  [("allow_commercial_use", some "d", PyTy.str),
   ("allow_modifications", some "d", PyTy.str),
   ("publicly_visible", some "y", PyTy.str),
   ("scale_units", none, PyTy.str),
   ("scale_type", none, PyTy.str),
   ("scale_lower", none, PyTy.float),
   ("scale_upper", none, PyTy.float),
   ("scale_est", none, PyTy.float),
   ("scale_err", none, PyTy.float),
   ("center_ra", none, PyTy.float),
   ("center_dec", none, PyTy.float),
   ("parity", none, PyTy.int),
   ("radius", none, PyTy.float),
   ("downsample_factor", none, PyTy.int),
   ("positional_error", none, PyTy.float),
   ("tweak_order", none, PyTy.int),
   ("crpix_center", none, PyTy.bool),
   ("invert", none, PyTy.bool),
   ("image_width", none, PyTy.int),
   ("image_height", none, PyTy.int),
   ("x", none, PyTy.list),
   ("y", none, PyTy.list),
   ("album", none, PyTy.str)]

/-- The loop body of `_get_upload_args` over a (sub)table.  `conv ty v`
models the Python coercion `typ(val)`; `none` models the coercion raising,
which aborts the whole call.  A supplied key is coerced and added; an
unsupplied key is added only when its table default is not `None`. -/
def upload_args_loop (conv : PyTy → PyVal → Option PyVal)
    (kwargs : List (String × PyVal)) :
    List (String × Option String × PyTy) → Option (List (String × PyVal))
  | [] => some []
  | (key, dflt, ty) :: rest =>
    match dict_lookup kwargs key with
    | some v =>
      match conv ty v with
      | none => none
      | some v2 =>
        match upload_args_loop conv kwargs rest with
        | none => none
        | some args => some ((key, v2) :: args)
    | none =>
      match dflt with
      | some d =>
        match upload_args_loop conv kwargs rest with
        | none => none
        | some args => some ((key, PyVal.str d) :: args)
      | none => upload_args_loop conv kwargs rest

/-- `_get_upload_args(**kwargs)` (client.py), parameterized by the Python
coercion semantics `conv`. -/
def _get_upload_args (conv : PyTy → PyVal → Option PyVal)
    (kwargs : List (String × PyVal)) : Option (List (String × PyVal)) :=
  upload_args_loop conv kwargs upload_option_table

/-- The default entry a table contributes for an unsupplied key: the first
row for that key carrying a non-`None` default. -/
def table_default (tbl : List (String × Option String × PyTy)) (k : String) :
    Option PyVal :=
  match tbl with
  | [] => none
  | (key, some d, _) :: rest =>
    if key = k then some (PyVal.str d) else table_default rest k
  | (_, none, _) :: rest => table_default rest k

lemma upload_args_loop_unsupplied (conv : PyTy → PyVal → Option PyVal)
    (kwargs : List (String × PyVal)) :
    ∀ tbl args, upload_args_loop conv kwargs tbl = some args →
    ∀ k, dict_lookup kwargs k = none →
    dict_lookup args k = table_default tbl k := by
  intro tbl
  induction tbl with
  | nil =>
    intro args h k _
    simp only [upload_args_loop, Option.some.injEq] at h
    subst h
    simp [dict_lookup, table_default]
  | cons row rest ih =>
    intro args h k hk
    obtain ⟨key, dflt, ty⟩ := row
    simp only [upload_args_loop] at h
    split at h
    · -- the key was supplied in kwargs
      rename_i v heq
      split at h
      · exact Option.noConfusion h
      · split at h
        · exact Option.noConfusion h
        · rename_i args2 hrest
          simp only [Option.some.injEq] at h
          subst h
          by_cases hkey : key = k
          · subst hkey
            rw [hk] at heq
            cases heq
          · rcases dflt with _ | d
            · simp only [dict_lookup, if_neg hkey, table_default]
              exact ih args2 hrest k hk
            · simp only [dict_lookup, if_neg hkey, table_default]
              exact ih args2 hrest k hk
    · -- the key was not supplied
      split at h
      · -- the table carries a non-None default for it
        rename_i d
        split at h
        · exact Option.noConfusion h
        · rename_i args2 hrest
          simp only [Option.some.injEq] at h
          subst h
          by_cases hkey : key = k
          · subst hkey
            simp [dict_lookup, table_default]
          · simp only [dict_lookup, if_neg hkey, table_default]
            exact ih args2 hrest k hk
      · -- default None: the row contributes nothing
        simp only [table_default]
        exact ih args h k hk

/-- C8: whenever `_get_upload_args` returns an argument object, any
recognized option that was not explicitly supplied is looked up in it
exactly as the table's default dictates: absent for every option whose
default is `None`, and present with `"d"`, `"d"`, `"y"` respectively for
`allow_commercial_use`, `allow_modifications` and `publicly_visible`, the
only three options with fixed defaults. -/
theorem upload_args_defaults (conv : PyTy → PyVal → Option PyVal)
    (kwargs args : List (String × PyVal))
    (h : _get_upload_args conv kwargs = some args) :
    (∀ k, dict_lookup kwargs k = none →
      dict_lookup args k = table_default upload_option_table k) ∧
    table_default upload_option_table "allow_commercial_use" =
      some (PyVal.str "d") ∧
    table_default upload_option_table "allow_modifications" =
      some (PyVal.str "d") ∧
    table_default upload_option_table "publicly_visible" =
      some (PyVal.str "y") ∧
    (∀ k, k ≠ "allow_commercial_use" → k ≠ "allow_modifications" →
      k ≠ "publicly_visible" → table_default upload_option_table k = none) := by
  refine ⟨upload_args_loop_unsupplied conv kwargs upload_option_table args h,
    by decide, by decide, by decide, ?_⟩
  intro k h1 h2 h3
  simp [upload_option_table, table_default, Ne.symm h1, Ne.symm h2, Ne.symm h3]

/-- Witness for C8: with identity coercions and only `scale_units` supplied,
the built argument object omits `center_ra` (no default) and carries
`publicly_visible = "y"` (fixed default). -/
theorem upload_args_defaults_witness :
    dict_lookup [("allow_commercial_use", PyVal.str "d"),
        ("allow_modifications", PyVal.str "d"),
        ("publicly_visible", PyVal.str "y"),
        ("scale_units", PyVal.str "degwidth")] "center_ra" = none ∧
      dict_lookup [("allow_commercial_use", PyVal.str "d"),
        ("allow_modifications", PyVal.str "d"),
        ("publicly_visible", PyVal.str "y"),
        ("scale_units", PyVal.str "degwidth")] "publicly_visible" =
        some (PyVal.str "y") := by
  have h := upload_args_defaults (fun _ v => some v)
    [("scale_units", PyVal.str "degwidth")]
    [("allow_commercial_use", PyVal.str "d"),
     ("allow_modifications", PyVal.str "d"),
     ("publicly_visible", PyVal.str "y"),
     ("scale_units", PyVal.str "degwidth")] (by decide)
  exact ⟨(h.1 "center_ra" (by decide)).trans (by decide),
    (h.1 "publicly_visible" (by decide)).trans (by decide)⟩

/-! ## astrometry.py : solve_web

`solve_web` logs in, tries the upload at most twice, then polls the
submission and job endpoints in one `while True` loop bounded by a single
timeout measured from `start`.  The remote service and the wall clock are
oracles: `clock n` is `time.time() - start` as read at the top of loop
iteration `n`; `subs subid n` is the `jobs` list returned by
`GET submissions/{subid}` at iteration `n`; `jobstat jobid n` the `status`
returned by `GET jobs/{jobid}` at iteration `n`; `jobinfo jobid` the
`GET jobs/{jobid}/info` response body. -/

/-- `TIMEOUT = 600` (astrometry.py). -/
def TIMEOUT : ℚ := 600

/-- One upload response: its `status` field and its `subid` field. -/
structure UploadRes where
  status : String
  subid : Option Nat
deriving Repr, DecidableEq

/-- The status check of `Client.send_request` (client.py, lines 115-119),
which every `c.upload(...)` call goes through: a parsed response whose
top-level `status` is `"error"` raises `RequestError`; any other response
is returned to the caller. -/
def send_request_check (res : UploadRes) : Except RequestError UploadRes :=
  if res.status = "error" then Except.error RequestError.serverError
  else Except.ok res

/-- The `for i in range(2)` upload loop of `solve_web`: each attempt calls
`c.upload`, i.e. `send_request`, which raises `RequestError` on a
status-`"error"` response, aborting the loop (and `solve_web`) at once;
a returned response with status `"success"` stops the loop keeping its
`subid`; a returned response with any other status is retried.  The first
component counts upload attempts actually made. -/
def upload_loop (uploads : Nat → UploadRes) :
    List Nat → Nat × Except RequestError (Option Nat)
  | [] => (0, Except.ok none)
  | i :: rest =>
    match send_request_check (uploads i) with
    | Except.error e => (1, Except.error e)
    | Except.ok res =>
      if res.status = "success" then (1, Except.ok res.subid)
      else
        let r := upload_loop uploads rest
        (r.1 + 1, r.2)

/-- The upload phase of `solve_web`: at most two attempts; `Except.ok none`
in the second component means `subid is None` afterwards, i.e.
`UploadError`; `Except.error` means `RequestError` escaped from
`send_request` and aborted `solve_web`. -/
def upload_phase (uploads : Nat → UploadRes) :
    Nat × Except RequestError (Option Nat) :=
  upload_loop uploads (List.range 2)

/-- The `calibration` record of a job-info response (`ra`/`dec` fields). -/
structure Calibration where
  ra : ℚ
  dec : ℚ
deriving Repr, DecidableEq

/-- A `GET jobs/{id}/info` response body. -/
structure JobInfo where
  calibration : Calibration
deriving Repr, DecidableEq

/-- `get_results(jobid)` (astrometry.py): extract ra/dec from the job's
calibration record. -/
def get_results (info : Nat → JobInfo) (jobid : Nat) : ℚ × ℚ :=
  ((info jobid).calibration.ra, (info jobid).calibration.dec)

/-- Environment of one `solve_web` call: upload responses, the wall clock,
and the polled endpoints (see the section comment for the indexing). -/
structure WebOracle where
  uploads : Nat → UploadRes
  clock : Nat → ℚ
  subs : Nat → Nat → List (Option Nat)
  jobstat : Nat → Nat → String
  jobinfo : Nat → JobInfo

/-- The job id `solve_web` takes from a `jobs` list, if any.  Python's
`if not jobid_list or not jobid_list[0]: continue` retries exactly when the
list is empty, its first element is `None` (null), or its first element is
the (falsy) integer 0 — i.e. exactly when this function returns `none`. -/
def subs_head_jobid : List (Option Nat) → Option Nat
  | some (Nat.succ j) :: _ => some (Nat.succ j)
  | _ => none

/-- One observable status poll: a `GET submissions/{subid}` or a
`GET jobs/{jobid}` issued during loop iteration `n`. -/
inductive PollEv
  | subPoll (n : Nat)
  | jobPoll (n : Nat)
deriving Repr, DecidableEq

/-- The loop iteration a poll event happened in. -/
def pollev_index : PollEv → Nat
  | PollEv.subPoll n => n
  | PollEv.jobPoll n => n

/-- Result of the polling phase: `timeout` models raising `TimeoutError`,
`noSolution` the `return None`, `solution` a returned ra/dec pair;
`fuelOut` marks runs longer than the step budget of the embedding. -/
inductive PollOutcome
  | timeout
  | noSolution
  | solution (sol : ℚ × ℚ)
  | fuelOut
deriving Repr, DecidableEq

/-- The `while True` polling loop of `solve_web`, started at iteration `n`
with `fuel` iterations of budget.  Each iteration first checks
`time.time() - start > TIMEOUT`, then polls the submission; on a Python-falsy
jobs list it sleeps and retries; otherwise it polls the job and either
retries (status `"solving"`), returns `get_results` (status `"success"`), or
returns `None` (any other status).  The second component is the ordered
trace of status polls performed. -/
def poll_loop (o : WebOracle) (subid : Nat) : Nat → Nat → PollOutcome × List PollEv
  | 0, _ => (PollOutcome.fuelOut, [])
  | fuel + 1, n =>
    if TIMEOUT < o.clock n then (PollOutcome.timeout, [])
    else
      match subs_head_jobid (o.subs subid n) with
      | none =>
        let r := poll_loop o subid fuel (n + 1)
        (r.1, PollEv.subPoll n :: r.2)
      | some jobid =>
        if o.jobstat jobid n = "solving" then
          let r := poll_loop o subid fuel (n + 1)
          (r.1, PollEv.subPoll n :: PollEv.jobPoll n :: r.2)
        else if o.jobstat jobid n = "success" then
          (PollOutcome.solution (get_results o.jobinfo jobid),
            [PollEv.subPoll n, PollEv.jobPoll n])
        else
          (PollOutcome.noSolution, [PollEv.subPoll n, PollEv.jobPoll n])

/-- Result of a whole `solve_web` call.  `requestError` is a `RequestError`
escaping from `send_request` during an upload attempt; `uploadError` is the
`UploadError` raised when both returned upload responses were
non-success. -/
inductive SolveWebOutcome
  | requestError
  | uploadError
  | timeout
  | noSolution
  | solution (sol : ℚ × ℚ)
  | fuelOut
deriving Repr, DecidableEq

/-- Inclusion of polling results into `solve_web` results. -/
def poll_to_web : PollOutcome → SolveWebOutcome
  | PollOutcome.timeout => SolveWebOutcome.timeout
  | PollOutcome.noSolution => SolveWebOutcome.noSolution
  | PollOutcome.solution s => SolveWebOutcome.solution s
  | PollOutcome.fuelOut => SolveWebOutcome.fuelOut

/-- `solve_web` (astrometry.py) after login: try the upload at most twice,
aborting at once if `send_request` raises `RequestError`; raise
`UploadError` if no returned attempt succeeded; otherwise poll with the
submission id obtained from the successful attempt. Returns the outcome,
the number of upload attempts made, and the poll trace. -/
def solve_web (o : WebOracle) (fuel : Nat) : SolveWebOutcome × Nat × List PollEv :=
  match upload_phase o.uploads with
  | (c, Except.error _) => (SolveWebOutcome.requestError, c, [])
  | (c, Except.ok none) => (SolveWebOutcome.uploadError, c, [])
  | (c, Except.ok (some subid)) =>
    let r := poll_loop o subid fuel 0
    (poll_to_web r.1, c, r.2)

/-- Iteration `n` of the polling loop neither times out nor terminates:
the clock is within the deadline and either the jobs list is still
Python-falsy (waiting for a job id) or the job polls as `"solving"`
(waiting for the job to finish). -/
def iter_continues (o : WebOracle) (subid n : Nat) : Bool :=
  decide (o.clock n ≤ TIMEOUT) &&
    (match subs_head_jobid (o.subs subid n) with
     | none => true
     | some jobid => decide (o.jobstat jobid n = "solving"))

/-! ### Claims about solve_web -/

/-- C4, counterexample.  Both upload responses carry the top-level status
`"error"` — a non-success status twice in a row.  The claim predicts exactly
two upload attempts and then `UploadError`; but `c.upload` goes through
`send_request`, which raises `RequestError` on a status-`"error"` response
(client.py, lines 115-119), so the program makes exactly ONE upload attempt
and `solve_web` aborts with `RequestError` — no second attempt, no
`UploadError`. -/
theorem error_status_upload_aborts :
    upload_phase (fun _ => ⟨"error", none⟩) =
        (1, Except.error RequestError.serverError) ∧
      solve_web ⟨fun _ => ⟨"error", none⟩, fun _ => 0, fun _ _ => [],
          fun _ _ => "", fun _ => ⟨⟨0, 0⟩⟩⟩ 3 =
        (SolveWebOutcome.requestError, 1, []) :=
  ⟨rfl, rfl⟩

/-- C4 (amended): a status-`"error"` upload response makes `send_request`
raise `RequestError` on the first such attempt, aborting `solve_web` with no
further upload attempt.  For responses `send_request` actually returns
(status neither `"success"` nor `"error"`): two such responses in a row give
exactly two upload attempts and then `UploadError`; a returned non-success
response followed by a success gives exactly two attempts, and the
submission id of the second response is the one polling uses.  In every
case at most two upload attempts are made. -/
theorem upload_retry_twice (o : WebOracle) :
    ((o.uploads 0).status ≠ "success" → (o.uploads 0).status ≠ "error" →
      (o.uploads 1).status ≠ "success" → (o.uploads 1).status ≠ "error" →
      upload_phase o.uploads = (2, Except.ok none) ∧
        ∀ fuel, solve_web o fuel = (SolveWebOutcome.uploadError, 2, [])) ∧
    (∀ s, (o.uploads 0).status ≠ "success" → (o.uploads 0).status ≠ "error" →
      (o.uploads 1).status = "success" →
      (o.uploads 1).subid = some s →
      upload_phase o.uploads = (2, Except.ok (some s)) ∧
        ∀ fuel, solve_web o fuel =
          (poll_to_web (poll_loop o s fuel 0).1, 2, (poll_loop o s fuel 0).2)) ∧
    ((o.uploads 0).status = "error" →
      upload_phase o.uploads = (1, Except.error RequestError.serverError) ∧
        ∀ fuel, solve_web o fuel = (SolveWebOutcome.requestError, 1, [])) ∧
    (upload_phase o.uploads).1 ≤ 2 := by
  have e : upload_phase o.uploads = upload_loop o.uploads [0, 1] := rfl
  refine ⟨?_, ?_, ?_, ?_⟩
  · intro h0s h0e h1s h1e
    have hup : upload_phase o.uploads = (2, Except.ok none) := by
      rw [e]; simp [upload_loop, send_request_check, h0s, h0e, h1s, h1e]
    exact ⟨hup, fun fuel => by simp [solve_web, hup]⟩
  · intro s h0s h0e h1s hsub
    have h1e : (o.uploads 1).status ≠ "error" := by rw [h1s]; decide
    have hup : upload_phase o.uploads = (2, Except.ok (some s)) := by
      rw [e]; simp [upload_loop, send_request_check, h0s, h0e, h1s, h1e, hsub]
    exact ⟨hup, fun fuel => by simp [solve_web, hup]⟩
  · intro h0e
    have hup : upload_phase o.uploads =
        (1, Except.error RequestError.serverError) := by
      rw [e]; simp [upload_loop, send_request_check, h0e]
    exact ⟨hup, fun fuel => by simp [solve_web, hup]⟩
  · rw [e]
    by_cases h0e : (o.uploads 0).status = "error"
    · simp [upload_loop, send_request_check, h0e]
    · by_cases h0s : (o.uploads 0).status = "success"
      · simp [upload_loop, send_request_check, h0e, h0s]
      · by_cases h1e : (o.uploads 1).status = "error"
        · simp [upload_loop, send_request_check, h0e, h0s, h1e]
        · by_cases h1s : (o.uploads 1).status = "success" <;>
            simp [upload_loop, send_request_check, h0e, h0s, h1e, h1s]

/-- Witness for C4 (amended): a returned `"failure"` response then a
`"success"` response with subid 9 gives two attempts keeping subid 9; two
returned `"failure"` responses give two attempts and no subid
(`UploadError`). -/
theorem upload_retry_twice_witness :
    upload_phase (fun i => if i = 0 then ⟨"failure", none⟩ else ⟨"success", some 9⟩) =
        (2, Except.ok (some 9)) ∧
      upload_phase (fun _ => ⟨"failure", none⟩) = (2, Except.ok none) :=
  ⟨((upload_retry_twice
        ⟨fun i => if i = 0 then ⟨"failure", none⟩ else ⟨"success", some 9⟩,
          fun _ => 0, fun _ _ => [], fun _ _ => "", fun _ => ⟨⟨0, 0⟩⟩⟩).2.1
      9 (by decide) (by decide) (by decide) (by decide)).1,
    ((upload_retry_twice
        ⟨fun _ => ⟨"failure", none⟩,
          fun _ => 0, fun _ _ => [], fun _ _ => "", fun _ => ⟨⟨0, 0⟩⟩⟩).1
      (by decide) (by decide) (by decide) (by decide)).1⟩

lemma poll_loop_timeout_go (o : WebOracle) (subid : Nat) :
    ∀ N s fuel, N < fuel →
    (∀ m, m < N → iter_continues o subid (s + m) = true) →
    TIMEOUT < o.clock (s + N) →
    (poll_loop o subid fuel s).1 = PollOutcome.timeout ∧
      ∀ ev ∈ (poll_loop o subid fuel s).2, pollev_index ev < s + N := by
  intro N
  induction N with
  | zero =>
    intro s fuel hf _ hclk
    obtain ⟨fuel, rfl⟩ : ∃ f, fuel = f + 1 := ⟨fuel - 1, by omega⟩
    rw [Nat.add_zero] at hclk
    simp [poll_loop, hclk]
  | succ N ih =>
    intro s fuel hf hcont hclk
    obtain ⟨fuel, rfl⟩ : ∃ f, fuel = f + 1 := ⟨fuel - 1, by omega⟩
    have h0 := hcont 0 (Nat.succ_pos N)
    rw [Nat.add_zero] at h0
    simp only [iter_continues, Bool.and_eq_true, decide_eq_true_eq] at h0
    obtain ⟨hle, hrest⟩ := h0
    have hnotlt : ¬ TIMEOUT < o.clock s := not_lt.mpr hle
    have hih := ih (s + 1) fuel (by omega)
      (fun m hm => by
        have := hcont (m + 1) (by omega)
        rwa [show s + (m + 1) = s + 1 + m by omega] at this)
      (by rwa [show s + 1 + N = s + (N + 1) by omega])
    match hhd : subs_head_jobid (o.subs subid s) with
    | none =>
      simp only [poll_loop, if_neg hnotlt, hhd]
      refine ⟨hih.1, ?_⟩
      intro ev hev
      simp only [List.mem_cons] at hev
      rcases hev with rfl | hev
      · simp only [pollev_index]; omega
      · have := hih.2 ev hev; omega
    | some jobid =>
      rw [hhd] at hrest
      simp only [decide_eq_true_eq] at hrest
      simp only [poll_loop, if_neg hnotlt, hhd, if_pos hrest]
      refine ⟨hih.1, ?_⟩
      intro ev hev
      simp only [List.mem_cons] at hev
      rcases hev with rfl | rfl | hev
      · simp only [pollev_index]; omega
      · simp only [pollev_index]; omega
      · have := hih.2 ev hev; omega

/-- C5: the poll sequence is bounded by the single timeout measured from
the start of polling: if the first `N` iterations continue (each within the
deadline, waiting either for a job id or for a `"solving"` job to finish)
and the clock read at iteration `N` exceeds `TIMEOUT`, the loop raises
`TimeoutError` and performs no status poll at or after iteration `N` —
regardless of which phase consumed the budget. -/
theorem poll_timeout_stops (o : WebOracle) (subid N fuel : Nat)
    (hfuel : N < fuel)
    (hcont : ∀ m, m < N → iter_continues o subid m = true)
    (hclk : TIMEOUT < o.clock N) :
    (poll_loop o subid fuel 0).1 = PollOutcome.timeout ∧
      ∀ ev ∈ (poll_loop o subid fuel 0).2, pollev_index ev < N := by
  have h := poll_loop_timeout_go o subid N 0 fuel hfuel
    (fun m hm => by simpa using hcont m hm) (by simpa using hclk)
  simpa using h

/-- Witness for C5: deadline already exceeded when iteration 1 starts,
after one quiet iteration: the loop times out. -/
theorem poll_timeout_stops_witness :
    (poll_loop ⟨fun _ => ⟨"error", none⟩, fun n => if n = 0 then 0 else 601,
        fun _ _ => [], fun _ _ => "", fun _ => ⟨⟨0, 0⟩⟩⟩ 7 5 0).1 =
      PollOutcome.timeout :=
  (poll_timeout_stops
    ⟨fun _ => ⟨"error", none⟩, fun n => if n = 0 then 0 else 601,
      fun _ _ => [], fun _ _ => "", fun _ => ⟨⟨0, 0⟩⟩⟩ 7 1 5
    (by decide)
    (by
      intro m hm
      interval_cases m
      simp [iter_continues, subs_head_jobid, TIMEOUT])
    (by norm_num [TIMEOUT])).1

/-- C7: at an iteration within the deadline whose jobs list yields a job id,
if the job polls as `"success"` the loop returns the solution's ra/dec
extracted by `get_results` from the job's calibration record; if it polls as
any terminal status (neither `"solving"` nor `"success"`) the loop returns
`None` — no exception either way. -/
theorem terminal_status_outcome (o : WebOracle) (subid n fuel jobid : Nat)
    (hclk : o.clock n ≤ TIMEOUT)
    (hhd : subs_head_jobid (o.subs subid n) = some jobid) :
    (o.jobstat jobid n = "success" →
      poll_loop o subid (fuel + 1) n =
        (PollOutcome.solution (get_results o.jobinfo jobid),
          [PollEv.subPoll n, PollEv.jobPoll n])) ∧
    (o.jobstat jobid n ≠ "solving" → o.jobstat jobid n ≠ "success" →
      poll_loop o subid (fuel + 1) n =
        (PollOutcome.noSolution, [PollEv.subPoll n, PollEv.jobPoll n])) := by
  have hnotlt : ¬ TIMEOUT < o.clock n := not_lt.mpr hclk
  constructor
  · intro hsucc
    have hns : o.jobstat jobid n ≠ "solving" := by rw [hsucc]; decide
    simp [poll_loop, hnotlt, hhd, hns, hsucc]
  · intro hns hnsucc
    simp [poll_loop, hnotlt, hhd, hns, hnsucc]

/-- Witness for C7: job 3 polls `"success"` at iteration 0, calibration
(42, 7): the loop returns that solution after one submission poll and one
job poll. -/
theorem terminal_status_outcome_witness :
    poll_loop ⟨fun _ => ⟨"success", some 1⟩, fun _ => 0, fun _ _ => [some 3],
        fun _ _ => "success", fun _ => ⟨⟨42, 7⟩⟩⟩ 1 1 0 =
      (PollOutcome.solution (42, 7), [PollEv.subPoll 0, PollEv.jobPoll 0]) :=
  (terminal_status_outcome
    ⟨fun _ => ⟨"success", some 1⟩, fun _ => 0, fun _ _ => [some 3],
      fun _ _ => "success", fun _ => ⟨⟨42, 7⟩⟩⟩ 1 0 0 3
    (by norm_num [TIMEOUT]) rfl).1 rfl

/-- C9, counterexample.  The submission-status response at the very first
poll already has a non-null first job id, namely the integer 0 — yet the
loop does NOT move to job-status polling: Python's `not jobid_list[0]` is
true for 0, so the loop sleeps and polls the submission again.  With N = 0
falsy-in-the-claim's-sense responses the claim predicts exactly 1 submission
poll before the first job poll; the trace shows 2. -/
theorem zero_jobid_retries :
    poll_loop ⟨fun _ => ⟨"success", some 1⟩, fun _ => 0,
        fun _ n => if n = 0 then [some 0] else [some 1],
        fun _ _ => "success", fun _ => ⟨⟨1, 2⟩⟩⟩ 1 5 0 =
      (PollOutcome.solution (1, 2),
        [PollEv.subPoll 0, PollEv.subPoll 1, PollEv.jobPoll 1]) := by
  decide

lemma poll_loop_subpolls_go (o : WebOracle) (subid : Nat) :
    ∀ N s fuel, N < fuel →
    (∀ m, m < N → o.clock (s + m) ≤ TIMEOUT ∧
      subs_head_jobid (o.subs subid (s + m)) = none) →
    o.clock (s + N) ≤ TIMEOUT →
    ∀ jobid, subs_head_jobid (o.subs subid (s + N)) = some jobid →
    ∃ t, (poll_loop o subid fuel s).2 =
      (List.range' s (N + 1)).map PollEv.subPoll ++ PollEv.jobPoll (s + N) :: t := by
  intro N
  induction N with
  | zero =>
    intro s fuel hf _ hclk jobid hhd
    obtain ⟨fuel, rfl⟩ : ∃ f, fuel = f + 1 := ⟨fuel - 1, by omega⟩
    rw [Nat.add_zero] at hclk hhd
    have hnotlt : ¬ TIMEOUT < o.clock s := not_lt.mpr hclk
    by_cases hsolv : o.jobstat jobid s = "solving"
    · exact ⟨(poll_loop o subid fuel (s + 1)).2,
        by simp [poll_loop, hnotlt, hhd, hsolv, List.range']⟩
    · by_cases hsucc : o.jobstat jobid s = "success"
      · exact ⟨[], by simp [poll_loop, hnotlt, hhd, hsolv, hsucc, List.range']⟩
      · exact ⟨[], by simp [poll_loop, hnotlt, hhd, hsolv, hsucc, List.range']⟩
  | succ N ih =>
    intro s fuel hf hwait hclk jobid hhd
    obtain ⟨fuel, rfl⟩ : ∃ f, fuel = f + 1 := ⟨fuel - 1, by omega⟩
    obtain ⟨hle, hnone⟩ := hwait 0 (Nat.succ_pos N)
    rw [Nat.add_zero] at hle hnone
    have hnotlt : ¬ TIMEOUT < o.clock s := not_lt.mpr hle
    obtain ⟨t, ht⟩ := ih (s + 1) fuel (by omega)
      (fun m hm => by
        have := hwait (m + 1) (by omega)
        rwa [show s + (m + 1) = s + 1 + m by omega] at this)
      (by rwa [show s + 1 + N = s + (N + 1) by omega])
      jobid (by rwa [show s + 1 + N = s + (N + 1) by omega])
    refine ⟨t, ?_⟩
    simp only [poll_loop, if_neg hnotlt, hnone, ht, List.range'_succ, List.map_cons,
      List.cons_append]
    rw [show s + 1 + N = s + (N + 1) by omega]

/-- C9 (amended): given `N` submission-status responses whose jobs list is
Python-falsy — empty, first entry null, or first entry the integer 0 —
followed, still within the deadline, by one response whose first job id is
truthy (non-null and non-zero), the loop performs exactly `N + 1`
submission-status polls and then immediately its first job-status poll.
(The original claim's "non-null" is not enough: a first job id of 0 is
non-null but falsy, and the loop keeps polling the submission.) -/
theorem poll_counts_until_jobid (o : WebOracle) (subid N fuel jobid : Nat)
    (hfuel : N < fuel)
    (hwait : ∀ m, m < N → o.clock m ≤ TIMEOUT ∧
      subs_head_jobid (o.subs subid m) = none)
    (hclk : o.clock N ≤ TIMEOUT)
    (hhd : subs_head_jobid (o.subs subid N) = some jobid) :
    ∃ t, (poll_loop o subid fuel 0).2 =
      (List.range (N + 1)).map PollEv.subPoll ++ PollEv.jobPoll N :: t := by
  have h := poll_loop_subpolls_go o subid N 0 fuel hfuel
    (fun m hm => by simpa using hwait m hm) (by simpa using hclk)
    jobid (by simpa using hhd)
  rw [List.range_eq_range']
  simpa using h

/-- Witness for C9 (amended): one empty jobs list, then a first job id of 4:
two submission polls, then the first job poll. -/
theorem poll_counts_until_jobid_witness :
    ∃ t, (poll_loop ⟨fun _ => ⟨"success", some 1⟩, fun _ => 0,
        fun _ n => if n = 0 then [] else [some 4],
        fun _ _ => "success", fun _ => ⟨⟨1, 2⟩⟩⟩ 1 3 0).2 =
      (List.range 2).map PollEv.subPoll ++ PollEv.jobPoll 1 :: t :=
  poll_counts_until_jobid
    ⟨fun _ => ⟨"success", some 1⟩, fun _ => 0,
      fun _ n => if n = 0 then [] else [some 4],
      fun _ _ => "success", fun _ => ⟨⟨1, 2⟩⟩⟩ 1 1 3 4
    (by decide)
    (by intro m hm; interval_cases m; exact ⟨by norm_num [TIMEOUT], rfl⟩)
    (by norm_num [TIMEOUT]) rfl
